import Mathlib

/-!
Shallow embedding of src/api/environment.cc (node embedder API) and proofs
about it. Pointers are natural numbers with 0 standing for the null pointer;
fatal CHECK failures are modelled as `none` results; engine-side operations
whose outcome the code only branches on (bootstrap success, the underlying
heap, private-slot reads) enter as explicit oracle inputs.
-/

namespace NodeApiEnvironment

/-! ### DebuggingArrayBufferAllocator (environment.cc lines 100-173)

The tracking map `allocations_` is modelled as a list of (pointer, size)
records with at most one record per pointer. -/

abbrev Ptr := Nat

abbrev AllocMap := List (Ptr × Nat)

/-- allocations_.find / it->second : the recorded size for a pointer. -/
def mapFind : AllocMap → Ptr → Option Nat
  | [], _ => none
  | e :: rest, p => if e.1 = p then some e.2 else mapFind rest p

/-- allocations_.erase(it) : drop the record found for a pointer. -/
def mapErase : AllocMap → Ptr → AllocMap
  | [], _ => []
  | e :: rest, p => if e.1 = p then rest else e :: mapErase rest p

/-- allocations_.count(p) for the modelled map. -/
def mapCount : AllocMap → Ptr → Nat
  | [], _ => 0
  | e :: rest, p => (if e.1 = p then 1 else 0) + mapCount rest p

/-- DebuggingArrayBufferAllocator::RegisterPointerInternal: skip null,
CHECK_EQ(allocations_.count(data), 0) is fatal (`none`) on a duplicate,
then insert the record. -/
def RegisterPointerInternal (m : AllocMap) (data size : Nat) : Option AllocMap :=
  if data = 0 then some m
  else if mapCount m data ≠ 0 then none
  else some ((data, size) :: m)

/-- DebuggingArrayBufferAllocator::UnregisterPointerInternal: skip null,
CHECK_NE(it, end) is fatal for an untracked pointer, CHECK_EQ(it->second,
size) is fatal for a size mismatch when the passed size is positive, then
erase the record. -/
def UnregisterPointerInternal (m : AllocMap) (data size : Nat) : Option AllocMap :=
  if data = 0 then some m
  else
    match mapFind m data with
    | none => none
    | some recorded =>
        if 0 < size ∧ recorded ≠ size then none else some (mapErase m data)

/-- DebuggingArrayBufferAllocator::Free: unregister, then the base free
(which does not touch the map). The resulting map is returned. -/
def Free (m : AllocMap) (data size : Nat) : Option AllocMap :=
  UnregisterPointerInternal m data size

/-- DebuggingArrayBufferAllocator::Reallocate. `ret` is the pointer the base
NodeArrayBufferAllocator::Reallocate returned (0 = null), an oracle input.
Returns the pointer handed back to the caller and the updated map. -/
def Reallocate (m : AllocMap) (data oldSize size ret : Nat) :
    Option (Ptr × AllocMap) :=
  if ret = 0 then
    if size = 0 then
      (UnregisterPointerInternal m data oldSize).map (fun m2 => (0, m2))
    else some (0, m)
  else
    let afterErase : Option AllocMap :=
      if data = 0 then some m
      else
        match mapFind m data with
        | none => none
        | some _ => some (mapErase m data)
    match afterErase with
    | none => none
    | some m2 => (RegisterPointerInternal m2 ret size).map (fun m3 => (ret, m3))

/-- The destructor CHECK(allocations_.empty()): passes exactly on an empty
map, anything else is fatal. -/
def destructorCheck (m : AllocMap) : Bool := m.isEmpty

/-- One allocator call as it affects the tracking map: an allocation whose
base call returned `ret`, or a free. -/
inductive AllocOp where
  | alloc (ret size : Nat)
  | free (ptr size : Nat)
deriving DecidableEq

def stepOp (m : AllocMap) : AllocOp → Option AllocMap
  | .alloc ret size => RegisterPointerInternal m ret size
  | .free ptr size => UnregisterPointerInternal m ptr size

def runOps (m : AllocMap) : List AllocOp → Option AllocMap
  | [] => some m
  | op :: rest =>
      match stepOp m op with
      | none => none
      | some m2 => runOps m2 rest

/-- A sequence of completed allocate/free pairs. -/
def allocFreePairs : List (Ptr × Nat) → List AllocOp
  | [] => []
  | q :: rest => AllocOp.alloc q.1 q.2 :: AllocOp.free q.1 q.2 :: allocFreePairs rest

/-! ### SetIsolateCreateParamsForNode (environment.cc lines 190-201)

Inputs are the values returned by uv_get_constrained_memory() and
uv_get_total_memory(); both report 0 when nothing is detectable. The result
is the memory amount passed to constraints.ConfigureDefaults, or `none`
when the engine is left at its built-in defaults. -/

def SetIsolateCreateParamsForNode (constrainedMemory totalMemory : Nat) : Option Nat :=
  let total := if 0 < constrainedMemory then min totalMemory constrainedMemory
               else totalMemory
  if 0 < total then some total else none

/-- Modelled from the words of claim C3: the effective memory is the lesser
of the OS memory reading and the cgroup/container constraint when such a
constraint is available, and nothing is configured (built-in defaults) when
no constraint is detectable. -/
def claimedHeapSizing (constrainedMemory totalMemory : Nat) : Option Nat :=
  if 0 < constrainedMemory then some (min totalMemory constrainedMemory) else none

/-- The amended sizing rule: lesser of the OS total-memory reading and the
cgroup constraint when a constraint is available, the OS total-memory
reading alone otherwise; built-in defaults exactly when that effective
amount is zero. -/
def amendedHeapSizing (constrainedMemory totalMemory : Nat) : Option Nat :=
  let effective := if 0 < constrainedMemory then min totalMemory constrainedMemory
                   else totalMemory
  if effective = 0 then none else some effective

/-! ### ShouldAbortOnUncaughtException (environment.cc lines 40-47) -/

/-- The per-environment state the predicate reads. -/
structure EnvState where
  is_main_thread : Bool
  is_stopping : Bool
  should_abort_on_uncaught_toggle : Bool
  inside_should_not_abort_on_uncaught_scope : Bool
deriving DecidableEq, Fintype

/-- Environment::GetCurrent(isolate) may find no environment (`none`). -/
def ShouldAbortOnUncaughtException (env : Option EnvState) : Bool :=
  match env with
  | none => false
  | some e =>
      (e.is_main_thread || !e.is_stopping) &&
      e.should_abort_on_uncaught_toggle &&
      !e.inside_should_not_abort_on_uncaught_scope

/-! ### FreeEnvironment (environment.cc lines 373-392)

The teardown is straight-line code; it is modelled as the sequence of its
observable steps, plus a state machine recording what each step has
established, so that what a given step observes can be read off the state
accumulated before it. -/

inductive TeardownEvent where
  | enterContextScope
  | setThreadStopFlag
  | stopSubWorkerContexts
  | runCleanupHooks
  | runAtExitCallbacks
  | exitContextScope
  | drainPlatformTasks
  | deleteEnvironment
deriving DecidableEq

/-- The event sequence of FreeEnvironment: the scoped block (HandleScope +
Context::Scope) sets the stop flag, stops sub-workers, runs cleanup hooks
and at-exit callbacks; after the scope exits, tasks are drained when the
isolate data carries a platform; only then is the Environment deleted. -/
def FreeEnvironment (hasPlatform : Bool) : List TeardownEvent :=
  [TeardownEvent.enterContextScope,
   TeardownEvent.setThreadStopFlag,
   TeardownEvent.stopSubWorkerContexts,
   TeardownEvent.runCleanupHooks,
   TeardownEvent.runAtExitCallbacks,
   TeardownEvent.exitContextScope] ++
  (if hasPlatform then [TeardownEvent.drainPlatformTasks] else []) ++
  [TeardownEvent.deleteEnvironment]

structure TeardownState where
  inContextScope : Bool
  threadStopFlag : Bool
  subWorkersStopped : Bool
  cleanupHooksRun : Bool
  atExitRun : Bool
  tasksDrained : Bool
  envAlive : Bool
deriving DecidableEq

def initialTeardownState : TeardownState :=
  { inContextScope := false, threadStopFlag := false, subWorkersStopped := false,
    cleanupHooksRun := false, atExitRun := false, tasksDrained := false,
    envAlive := true }

def stepTeardown (s : TeardownState) : TeardownEvent → TeardownState
  | .enterContextScope => { s with inContextScope := true }
  | .setThreadStopFlag => { s with threadStopFlag := true }
  | .stopSubWorkerContexts => { s with subWorkersStopped := true }
  | .runCleanupHooks => { s with cleanupHooksRun := true }
  | .runAtExitCallbacks => { s with atExitRun := true }
  | .exitContextScope => { s with inContextScope := false }
  | .drainPlatformTasks => { s with tasksDrained := true }
  | .deleteEnvironment => { s with envAlive := false }

/-- The state established by the first `k` teardown steps: what the step at
index `k` observes when it runs. -/
def stateBefore (hasPlatform : Bool) (k : Nat) : TeardownState :=
  ((FreeEnvironment hasPlatform).take k).foldl stepTeardown initialTeardownState

/-! ### CreateEnvironment (environment.cc lines 320-371)

The outcome of the two engine-side bootstrap calls (RunBootstrapping and
ExecuteBootstrapper of internal/bootstrap/environment) enter as oracle
booleans; the trace records the calls the function makes. -/

structure CreateEnvOracle where
  prepareForExecution : Bool
  ownsProcessState : Bool
  runBootstrappingOk : Bool
  envBootstrapUnitOk : Bool
deriving DecidableEq, Fintype

/-- What a returned Environment has completed. -/
structure EnvModel where
  ranBootstrap : Bool
  ranEnvBootstrapUnit : Bool
deriving DecidableEq, Fintype

inductive CreateEvent where
  | constructEnvironment
  | runBootstrapping
  | executeEnvBootstrapUnit
  | freeEnvironmentCall
deriving DecidableEq

def CreateEnvironment (o : CreateEnvOracle) : Option EnvModel × List CreateEvent :=
  if !o.runBootstrappingOk then
    (none, [CreateEvent.constructEnvironment, CreateEvent.runBootstrapping,
            CreateEvent.freeEnvironmentCall])
  else if !o.prepareForExecution then
    (some { ranBootstrap := true, ranEnvBootstrapUnit := false },
     [CreateEvent.constructEnvironment, CreateEvent.runBootstrapping])
  else if !o.envBootstrapUnitOk then
    (none, [CreateEvent.constructEnvironment, CreateEvent.runBootstrapping,
            CreateEvent.executeEnvBootstrapUnit, CreateEvent.freeEnvironmentCall])
  else
    (some { ranBootstrap := true, ranEnvBootstrapUnit := true },
     [CreateEvent.constructEnvironment, CreateEvent.runBootstrapping,
      CreateEvent.executeEnvBootstrapUnit])

/-! ### InitializeContext and its two stages (environment.cc lines 533-622)

For the runtime stage only the two global objects it touches matter: the
model keeps, for each of Intl and Atomics, `none` when the global lookup
fails or yields a non-object, and otherwise the list of its property
names. Property deletion on an engine object is total. The snapshot stage
result enters as an oracle boolean. -/

structure ContextGlobals where
  intl : Option (List String)
  atomics : Option (List String)
deriving DecidableEq

/-- InitializeContextRuntime: best-effort deletion of Intl.v8BreakIterator
and Atomics.wake; a missing global or a non-object value is skipped. -/
def InitializeContextRuntime (g : ContextGlobals) : ContextGlobals :=
  { intl := g.intl.map (fun props => props.erase "v8BreakIterator"),
    atomics := g.atomics.map (fun props => props.erase "wake") }

/-- InitializeContext: fail when InitializeContextForSnapshot fails,
otherwise run InitializeContextRuntime and succeed. -/
def InitializeContext (snapshotStageOk : Bool) (g : ContextGlobals) :
    Option ContextGlobals :=
  if snapshotStageOk then some (InitializeContextRuntime g) else none

/-! ### GetPerContextExports (environment.cc lines 496-514)

The private per-context slot holds `none` when never set, or a value; only
an object value counts as an existing exports object. GetPrivate and
SetPrivate can fail (oracle booleans), in which case the function returns
empty. On success it returns the exports object and the slot contents
after the call. -/

inductive JsVal where
  | obj (id : Nat)
  | nonObj
deriving DecidableEq

def GetPerContextExports (getPrivateFailed setPrivateFailed : Bool)
    (slot : Option JsVal) (freshId : Nat) : Option (JsVal × Option JsVal) :=
  if getPrivateFailed then none
  else
    match slot with
    | some (JsVal.obj i) => some (JsVal.obj i, some (JsVal.obj i))
    | _ =>
        if setPrivateFailed then none
        else some (JsVal.obj freshId, some (JsVal.obj freshId))

/-! ### AllocateEnvironmentThreadId (environment.cc lines 661-665)

`next_thread_id` is a process-wide std::atomic of uint64_t starting at 0;
the post-increment returns the current value and stores its successor
modulo 2 to the 64. -/

def AllocateEnvironmentThreadId (counter : Nat) : Nat × Nat :=
  (counter, (counter + 1) % 2 ^ 64)

/-- The counter value once `k` allocations have completed. -/
def threadCounterAfter : Nat → Nat
  | 0 => 0
  | k + 1 => (AllocateEnvironmentThreadId (threadCounterAfter k)).2

/-- The thread id handed to the k-th allocation (0-based). -/
def threadIdOf (k : Nat) : Nat :=
  (AllocateEnvironmentThreadId (threadCounterAfter k)).1

/-! ### Theorems -/

theorem runOps_allocFreePairs (ps : List (Ptr × Nat)) :
    runOps [] (allocFreePairs ps) = some [] := by
  induction ps with
  | nil => rfl
  | cons q rest ih =>
      rcases q with ⟨p, s⟩
      by_cases hp : p = 0
      · simpa [allocFreePairs, runOps, stepOp, RegisterPointerInternal,
          UnregisterPointerInternal, hp] using ih
      · simpa [allocFreePairs, runOps, stepOp, RegisterPointerInternal,
          UnregisterPointerInternal, mapCount, mapFind, mapErase, hp] using ih

theorem threadCounterAfter_eq (k : Nat) (h : k < 2 ^ 64) :
    threadCounterAfter k = k := by
  induction k with
  | zero => rfl
  | succ n ih =>
      have hn : n < 2 ^ 64 := Nat.lt_of_succ_lt h
      have h2 : (n + 1) % 2 ^ 64 = n + 1 := Nat.mod_eq_of_lt h
      simp [threadCounterAfter, AllocateEnvironmentThreadId, ih hn, h2]
      exact h.trans_eq (by norm_num)

/-- C4: for every Free call on the debug-tracking allocator with a non-null
pointer, an untracked pointer is fatal; a positive passed size differing
from the recorded size is fatal; a passed size equal to the record, or a
passed size of zero, succeeds and removes the record. -/
theorem debugAllocator_free_size_check :
    ∀ (m : AllocMap) (p size recorded : Nat),
      (p ≠ 0 → mapFind m p = none → Free m p size = none)
      ∧ (p ≠ 0 → mapFind m p = some recorded → 0 < size → size ≠ recorded →
          Free m p size = none)
      ∧ (p ≠ 0 → mapFind m p = some recorded → size = recorded ∨ size = 0 →
          Free m p size = some (mapErase m p)) := by
  intro m p size recorded
  refine ⟨?_, ?_, ?_⟩
  · intro hp hf
    simp [Free, UnregisterPointerInternal, hp, hf]
  · intro hp hf hpos hne
    simp only [Free, UnregisterPointerInternal, if_neg hp, hf]
    rw [if_pos ⟨hpos, Ne.symm hne⟩]
  · intro hp hf hcase
    simp only [Free, UnregisterPointerInternal, if_neg hp, hf]
    rcases hcase with rfl | rfl
    · rw [if_neg]
      simp
    · rw [if_neg]
      simp

/-- C5: Reallocate with a null base result frees the record when the
requested size is zero and leaves it in place otherwise; with a non-null
base result it drops the old record (for a non-null original pointer) and
inserts a record of the new size for the returned pointer; reallocating a
64-byte record to 128 bytes leaves exactly one record, of size 128, for
the returned pointer, and none for the original one. -/
theorem debugAllocator_reallocate_tracking :
    ∀ (m : AllocMap) (p oldSize size ret recorded : Nat),
      (p ≠ 0 → mapFind m p = some oldSize →
        Reallocate m p oldSize 0 0 = some (0, mapErase m p))
      ∧ (0 < size → Reallocate m p oldSize size 0 = some (0, m))
      ∧ (ret ≠ 0 → p ≠ 0 → mapFind m p = some recorded →
          mapCount (mapErase m p) ret = 0 →
          Reallocate m p oldSize size ret = some (ret, (ret, size) :: mapErase m p))
      ∧ (ret ≠ 0 → mapCount m ret = 0 →
          Reallocate m 0 oldSize size ret = some (ret, (ret, size) :: m))
      ∧ (Reallocate [(1, 64)] 1 64 128 2 = some (2, [(2, 128)])
          ∧ mapFind [(2, 128)] 1 = none
          ∧ mapCount [(2, 128)] 2 = 1
          ∧ mapFind [(2, 128)] 2 = some 128) := by
  intro m p oldSize size ret recorded
  refine ⟨?_, ?_, ?_, ?_, ?_⟩
  · intro hp hf
    simp [Reallocate, UnregisterPointerInternal, hp, hf]
  · intro hpos
    simp [Reallocate, Nat.pos_iff_ne_zero.mp hpos]
  · intro hr hp hf hcount
    simp [Reallocate, RegisterPointerInternal, hr, hp, hf, hcount]
  · intro hr hcount
    simp [Reallocate, RegisterPointerInternal, hr, hcount]
  · exact ⟨by decide, by decide, by decide, by decide⟩

/-- C6: registering an already-tracked pointer is fatal; a successful
registration of a non-null pointer leaves exactly one record for it; the
allocator destructor check passes exactly on an empty map; and any
sequence of completed allocate/free pairs ends with the map empty. -/
theorem debugAllocator_tracking_invariant :
    ∀ (m : AllocMap) (p s : Nat) (ps : List (Ptr × Nat)),
      (p ≠ 0 → mapCount m p ≠ 0 → RegisterPointerInternal m p s = none)
      ∧ (p ≠ 0 → ∀ m2, RegisterPointerInternal m p s = some m2 → mapCount m2 p = 1)
      ∧ (destructorCheck m = true ↔ m = [])
      ∧ runOps [] (allocFreePairs ps) = some [] := by
  intro m p s ps
  refine ⟨?_, ?_, ?_, runOps_allocFreePairs ps⟩
  · intro hp hc
    simp [RegisterPointerInternal, hp, hc]
  · intro hp m2 h
    by_cases hc : mapCount m p = 0
    · simp only [RegisterPointerInternal, if_neg hp, hc, ne_eq,
        not_true_eq_false, if_false, ite_false, Option.some_inj] at h
      · subst h
        simp [mapCount, hc]
    · simp [RegisterPointerInternal, hp, hc] at h
  · cases m <;> simp [destructorCheck]

/-- C7: the default abort-on-uncaught-exception predicate returns true
exactly when a current Environment exists, it is on the main thread or not
stopping, its abort toggle is set, and execution is not inside a
should-not-abort suppression scope. -/
theorem shouldAbortOnUncaughtException_characterization :
    ∀ env : Option EnvState,
      ShouldAbortOnUncaughtException env = true ↔
        ∃ e, env = some e
          ∧ (e.is_main_thread = true ∨ e.is_stopping = false)
          ∧ e.should_abort_on_uncaught_toggle = true
          ∧ e.inside_should_not_abort_on_uncaught_scope = false := by
  decide

/-- C8: InitializeContext fails exactly when the snapshot-safe stage fails,
and otherwise runs the runtime stage and succeeds; the runtime stage
deletes Intl.v8BreakIterator and Atomics.wake best-effort, leaving an
absent global or an absent property untouched and never failing. -/
theorem initializeContext_stage_composition :
    ∀ (snapshotStageOk : Bool) (g : ContextGlobals),
      (InitializeContext snapshotStageOk g = none ↔ snapshotStageOk = false)
      ∧ (snapshotStageOk = true →
          InitializeContext snapshotStageOk g = some (InitializeContextRuntime g))
      ∧ (g.intl = none → (InitializeContextRuntime g).intl = none)
      ∧ (∀ props, g.intl = some props →
          (InitializeContextRuntime g).intl = some (props.erase "v8BreakIterator"))
      ∧ (∀ props, g.intl = some props → "v8BreakIterator" ∉ props →
          (InitializeContextRuntime g).intl = some props)
      ∧ (g.atomics = none → (InitializeContextRuntime g).atomics = none)
      ∧ (∀ props, g.atomics = some props → "wake" ∉ props →
          (InitializeContextRuntime g).atomics = some props) := by
  intro ok g
  refine ⟨?_, ?_, ?_, ?_, ?_, ?_, ?_⟩
  · cases ok <;> simp [InitializeContext]
  · intro h
    simp [InitializeContext, h]
  · intro h
    simp [InitializeContextRuntime, h]
  · intro props h
    simp [InitializeContextRuntime, h]
  · intro props h hmem
    simp [InitializeContextRuntime, h, List.erase_of_not_mem hmem]
  · intro h
    simp [InitializeContextRuntime, h]
  · intro props h hmem
    simp [InitializeContextRuntime, h, List.erase_of_not_mem hmem]

/-- C9: thread ids come from a process-wide counter that starts at 0 and is
post-incremented, so ids are monotonically increasing in allocation order
and distinct, for any allocations within the uint64 range. -/
theorem threadId_monotone_allocation :
    threadIdOf 0 = 0
    ∧ (∀ i j, i < j → j < 2 ^ 64 → threadIdOf i < threadIdOf j)
    ∧ (∀ i j, i < 2 ^ 64 → j < 2 ^ 64 → i ≠ j → threadIdOf i ≠ threadIdOf j) := by
  have key : ∀ k, k < 2 ^ 64 → threadIdOf k = k := by
    intro k hk
    simp [threadIdOf, AllocateEnvironmentThreadId, threadCounterAfter_eq k hk]
  refine ⟨rfl, ?_, ?_⟩
  · intro i j hij hj
    rw [key i (hij.trans hj), key j hj]
    exact hij
  · intro i j hi hj hne
    rw [key i hi, key j hj]
    exact hne

/-- C10: GetPerContextExports returns the object already stored in the
private per-context slot when there is one, stores a fresh object only
when the slot holds none, and hence two successive successful calls on the
same context return the same object. -/
theorem getPerContextExports_idempotent :
    ∀ (gf sf : Bool) (slot : Option JsVal) (freshId : Nat),
      (∀ i, gf = false → slot = some (JsVal.obj i) →
        GetPerContextExports gf sf slot freshId = some (JsVal.obj i, slot))
      ∧ (∀ v slot2, GetPerContextExports gf sf slot freshId = some (v, slot2) →
          ∀ (sf2 : Bool) (f2 : Nat),
            GetPerContextExports false sf2 slot2 f2 = some (v, slot2))
      ∧ ((∀ i, slot ≠ some (JsVal.obj i)) → gf = false → sf = false →
          GetPerContextExports gf sf slot freshId =
            some (JsVal.obj freshId, some (JsVal.obj freshId))) := by
  intro gf sf slot freshId
  refine ⟨?_, ?_, ?_⟩
  · intro i hgf hslot
    subst hgf hslot
    simp [GetPerContextExports]
  · intro v slot2 h sf2 f2
    cases gf
    · rcases slot with _ | val
      · rcases sf with _ | _
        · simp only [GetPerContextExports, if_false, ite_false,
            Option.some_inj] at h
          rcases h with ⟨rfl, rfl⟩
          simp [GetPerContextExports]
        · simp [GetPerContextExports] at h
      · rcases val with i | _
        · simp only [GetPerContextExports, if_false, ite_false,
            Option.some_inj] at h
          rcases h with ⟨rfl, rfl⟩
          simp [GetPerContextExports]
        · rcases sf with _ | _
          · simp only [GetPerContextExports, if_false, ite_false,
              Option.some_inj] at h
            rcases h with ⟨rfl, rfl⟩
            simp [GetPerContextExports]
          · simp [GetPerContextExports] at h
    · simp [GetPerContextExports] at h
  · intro hno hgf hsf
    subst hgf hsf
    rcases slot with _ | val
    · simp [GetPerContextExports]
    · rcases val with i | _
      · exact absurd rfl (hno i)
      · simp [GetPerContextExports]

/-- C2: CreateEnvironment returns null exactly when its own bootstrap
fails (RunBootstrapping, or the internal/bootstrap/environment unit when
the prepare-for-execution flag is set); on failure the partially built
Environment is handed to FreeEnvironment as the last step before
returning, and a returned Environment has completed every bootstrap step
its flags require, with no FreeEnvironment call in the trace. -/
theorem createEnvironment_failure_teardown :
    ∀ o : CreateEnvOracle,
      ((CreateEnvironment o).1 = none ↔
        (o.runBootstrappingOk = false
          ∨ (o.prepareForExecution = true ∧ o.envBootstrapUnitOk = false)))
      ∧ ((CreateEnvironment o).1 = none →
          (CreateEnvironment o).2.getLast? = some CreateEvent.freeEnvironmentCall)
      ∧ (∀ e, (CreateEnvironment o).1 = some e →
          e.ranBootstrap = true
          ∧ (o.prepareForExecution = true → e.ranEnvBootstrapUnit = true)
          ∧ CreateEvent.freeEnvironmentCall ∉ (CreateEnvironment o).2) := by
  decide

/-- C1: in FreeEnvironment the thread-stop flag is set inside the live
context scope; sub-workers are stopped after the flag is set; cleanup
hooks run with the flag set and sub-workers stopped, still in scope;
at-exit callbacks run after cleanup hooks, still in scope; platform tasks
are drained only after the scope has exited, with the Environment still
alive; the Environment is deleted last, after at-exit callbacks and, when
a platform exists, after the drain. -/
theorem freeEnvironment_teardown_order :
    ∀ (hasPlatform : Bool) (k : Nat),
      ((FreeEnvironment hasPlatform)[k]? = some TeardownEvent.setThreadStopFlag →
        (stateBefore hasPlatform k).inContextScope = true
        ∧ (stateBefore hasPlatform k).envAlive = true)
      ∧ ((FreeEnvironment hasPlatform)[k]? = some TeardownEvent.stopSubWorkerContexts →
          (stateBefore hasPlatform k).threadStopFlag = true
          ∧ (stateBefore hasPlatform k).inContextScope = true)
      ∧ ((FreeEnvironment hasPlatform)[k]? = some TeardownEvent.runCleanupHooks →
          (stateBefore hasPlatform k).threadStopFlag = true
          ∧ (stateBefore hasPlatform k).subWorkersStopped = true
          ∧ (stateBefore hasPlatform k).inContextScope = true)
      ∧ ((FreeEnvironment hasPlatform)[k]? = some TeardownEvent.runAtExitCallbacks →
          (stateBefore hasPlatform k).cleanupHooksRun = true
          ∧ (stateBefore hasPlatform k).inContextScope = true)
      ∧ ((FreeEnvironment hasPlatform)[k]? = some TeardownEvent.drainPlatformTasks →
          (stateBefore hasPlatform k).inContextScope = false
          ∧ (stateBefore hasPlatform k).atExitRun = true
          ∧ (stateBefore hasPlatform k).cleanupHooksRun = true
          ∧ (stateBefore hasPlatform k).envAlive = true)
      ∧ ((FreeEnvironment hasPlatform)[k]? = some TeardownEvent.deleteEnvironment →
          (stateBefore hasPlatform k).atExitRun = true
          ∧ (stateBefore hasPlatform k).inContextScope = false
          ∧ (hasPlatform = true → (stateBefore hasPlatform k).tasksDrained = true)
          ∧ (stateBefore hasPlatform k).envAlive = true)
      ∧ (FreeEnvironment hasPlatform).getLast? = some TeardownEvent.deleteEnvironment
      ∧ (TeardownEvent.drainPlatformTasks ∈ FreeEnvironment hasPlatform ↔
          hasPlatform = true) := by
  intro hasPlatform k
  cases hasPlatform
  · rcases k with _ | _ | _ | _ | _ | _ | _ | _ | k
    · decide
    · decide
    · decide
    · decide
    · decide
    · decide
    · decide
    · decide
    · have h : (FreeEnvironment false)[k + 8]? = none :=
        List.getElem?_eq_none (by simp [FreeEnvironment])
      exact ⟨by simp [h], by simp [h], by simp [h], by simp [h], by simp [h],
        by simp [h], by decide, by decide⟩
  · rcases k with _ | _ | _ | _ | _ | _ | _ | _ | k
    · decide
    · decide
    · decide
    · decide
    · decide
    · decide
    · decide
    · decide
    · have h : (FreeEnvironment true)[k + 8]? = none :=
        List.getElem?_eq_none (by simp [FreeEnvironment])
      exact ⟨by simp [h], by simp [h], by simp [h], by simp [h], by simp [h],
        by simp [h], by decide, by decide⟩

/-- C3 counterexample: with no cgroup/container constraint detectable
(uv_get_constrained_memory() = 0) and an OS memory reading of 200, the
code still configures the heap, from the OS total-memory reading, while
the claimed rule configures nothing. -/
theorem setIsolateCreateParams_claim_counterexample :
    SetIsolateCreateParamsForNode 0 200 = some 200
      ∧ claimedHeapSizing 0 200 = none := by
  decide

/-- C3 as amended: the effective memory is the lesser of the OS
total-memory reading and the cgroup constraint when a constraint is
available, and the OS total-memory reading alone otherwise; the engine is
left at its built-in defaults exactly when that effective amount is
zero. -/
theorem setIsolateCreateParams_amended_heap_sizing :
    ∀ constrainedMemory totalMemory : Nat,
      SetIsolateCreateParamsForNode constrainedMemory totalMemory =
        amendedHeapSizing constrainedMemory totalMemory := by
  intro cm tm
  unfold SetIsolateCreateParamsForNode amendedHeapSizing
  rcases Nat.eq_zero_or_pos (if 0 < cm then min tm cm else tm) with h | h
  · simp [h]
  · simp [h, h.ne']

end NodeApiEnvironment
